import Mathlib

/-!
# Verification of the accessibility/usability analyzer (`src/script.js`)

This file shallowly embeds the analysis engine of the repository: the five
heuristic checks of `analyzeDocument`, the scoring aggregation, and the
color/contrast math (`parseCssColor`, `relativeLuminance`,
`computeContrastRatio`, `getEffectiveBackground`).

Modelling conventions:
* JavaScript numbers flowing through the parsers are modelled as `ℚ`;
  a `NaN` value is modelled as `none` in `Option ℚ` (the only producers of
  `NaN` in the analyzed code are failed `parseFloat` calls, and the only
  consumers are order comparisons, which are false on `NaN` — i.e. the
  `none` branches below).
* The luminance computation uses the real power `x ^ (2.4 : ℝ)`, so the
  contrast pipeline lives in `ℝ` (JavaScript's binary floats are modelled
  as exact real arithmetic).
* A rendered DOM document is modelled by the data the analyzer actually
  reads: the `alt` attributes of its `img` elements, the heading levels in
  document order, the computed `fontSize` strings of its text elements, the
  computed `color`/`backgroundColor` strings (plus ancestor backgrounds)
  of its contrast-target elements, and the root element's scroll/client
  widths.
-/

/-- The whitespace characters recognized by the JavaScript `\s` class and
`String.prototype.trim` previously restricted to the ASCII range plus
NO-BREAK SPACE (exotic Unicode space code points are omitted; they cannot
occur in the computed-style strings the analyzer inspects). -/
def jsSpace (c : Char) : Bool :=
  c = ' ' || c = '\t' || c = '\n' || c = '\r' || c = '\x0b' || c = '\x0c' || c = ' '

/-- The character class `[\d.]` of the color regex in `parseCssColor`. -/
def isDigitOrDot (c : Char) : Bool := c.isDigit || c = '.'

/-- Value of a digit string (most significant first). -/
def digitsToNat (ds : List Char) : ℕ :=
  ds.foldl (fun a c => 10 * a + (c.toNat - 48)) 0

/-- JavaScript `String.prototype.trim`. -/
def jsTrim (s : String) : String :=
  ⟨((s.data.dropWhile jsSpace).reverse.dropWhile jsSpace).reverse⟩

/-- The exponent suffix accepted by JavaScript `parseFloat`
(`e`/`E`, optional sign, digits); an incomplete exponent contributes 0,
matching `parseFloat`'s longest-valid-prefix semantics. -/
def expVal (cs : List Char) : ℤ :=
  match cs with
  | c :: t =>
    if c = 'e' ∨ c = 'E' then
      match t with
      | '-' :: u =>
        if u.takeWhile Char.isDigit = [] then 0 else -(digitsToNat (u.takeWhile Char.isDigit) : ℤ)
      | '+' :: u =>
        if u.takeWhile Char.isDigit = [] then 0 else (digitsToNat (u.takeWhile Char.isDigit) : ℤ)
      | u =>
        if u.takeWhile Char.isDigit = [] then 0 else (digitsToNat (u.takeWhile Char.isDigit) : ℤ)
    else 0
  | [] => 0

/-- The scanning stage of the unsigned part of JavaScript `parseFloat`
(`digits [. digits] [exp]`, longest valid prefix): the integer digits, the
fraction digits, and the exponent value; `none` models `NaN` (no digits at
all, e.g. the input starts with a letter or a bare dot). -/
def unsignedParts (cs : List Char) : Option (List Char × List Char × ℤ) :=
  let d1 := cs.takeWhile Char.isDigit
  let r1 := cs.dropWhile Char.isDigit
  let fr : List Char × List Char :=
    match r1 with
    | '.' :: t => (t.takeWhile Char.isDigit, t.dropWhile Char.isDigit)
    | _ => ([], r1)
  if d1 = [] ∧ fr.1 = [] then none
  else some (d1, fr.1, expVal fr.2)

/-- The numeric value of the unsigned part of JavaScript `parseFloat`. -/
def parseUnsigned (cs : List Char) : Option ℚ :=
  (unsignedParts cs).map
    (fun p => ((digitsToNat p.1 : ℚ) + (digitsToNat p.2.1 : ℚ) / 10 ^ p.2.1.length) * 10 ^ p.2.2)

/-- JavaScript `parseFloat`: skip leading whitespace, optional sign, then the
longest numeric prefix; `none` models `NaN`.  (An `Infinity` literal is also
modelled as `none`: the analyzed code only ever compares the result with
`< 12` after an `isNaN` guard, and both `NaN` and `Infinity` are excluded by
that use, so the two are observationally equal here.) -/
def jsParseFloat (s : String) : Option ℚ :=
  match s.data.dropWhile jsSpace with
  | [] => none
  | c :: t =>
    if c = '-' then (parseUnsigned t).map (fun q => -q)
    else if c = '+' then parseUnsigned t
    else parseUnsigned (c :: t)

/-- One `\s*([\d.]+)` group of the color regex: skip spaces, take a nonempty
maximal run of digits/dots, return the capture and the rest.  (Maximal munch
agrees with the backtracking regex here because the following regex atom is
`\s*,` and a digit or dot is neither a space nor a comma.) -/
def grabNum (cs : List Char) : Option (List Char × List Char) :=
  let body := (cs.dropWhile jsSpace).takeWhile isDigitOrDot
  if body = [] then none else some (body, (cs.dropWhile jsSpace).dropWhile isDigitOrDot)

/-- The `\s*,` separator of the color regex. -/
def expectComma (cs : List Char) : Option (List Char) :=
  match cs.dropWhile jsSpace with
  | ',' :: t => some t
  | _ => none

/-- The body `\s*([\d.]+)\s*,\s*([\d.]+)\s*,\s*([\d.]+)` of the color regex,
applied right after the opening parenthesis; returns the three captures. -/
def matchBody (cs : List Char) : Option (List Char × List Char × List Char) :=
  (grabNum cs).bind fun p1 =>
    (expectComma p1.2).bind fun s1 =>
      (grabNum s1).bind fun p2 =>
        (expectComma p2.2).bind fun s2 =>
          (grabNum s2).map fun p3 => (p1.1, p2.1, p3.1)

/-- Attempt of the regex `rgba?\(` (case-insensitive, with the regex's
backtracking on the optional `a`: `rgba` followed by `(` is preferred, and
`rgb(` is the fallback — for a fixed start position these alternatives are
the three literal prefixes below) at that start position, followed by the
body. -/
def matchRgbAt (cs : List Char) : Option (List Char × List Char × List Char) :=
  match cs with
  | r :: g :: b :: rest =>
    if (r = 'r' ∨ r = 'R') ∧ (g = 'g' ∨ g = 'G') ∧ (b = 'b' ∨ b = 'B') then
      match rest with
      | '(' :: t => matchBody t
      | 'a' :: '(' :: t => matchBody t
      | 'A' :: '(' :: t => matchBody t
      | _ => none
    else none
  | _ => none

/-- Leftmost search of the color regex over the whole string, as performed by
JavaScript `String.prototype.match` (no anchors in the source regex). -/
def searchRgb (cs : List Char) : Option (List Char × List Char × List Char) :=
  match cs with
  | [] => none
  | c :: rest =>
    match matchRgbAt (c :: rest) with
    | some res => some res
    | none => searchRgb rest

/-- The object `{ r, g, b }` built by `parseCssColor`; each field is the
result of `parseFloat` on the corresponding capture (`none` models `NaN`). -/
structure RGBColor where
  r : Option ℚ
  g : Option ℚ
  b : Option ℚ
  deriving DecidableEq

/-- `parseCssColor` (script.js lines 274–284): falsy input gives `null`,
otherwise match `/rgba?\(\s*([\d.]+)\s*,\s*([\d.]+)\s*,\s*([\d.]+)/i`
anywhere in the string and apply `parseFloat` to each capture. -/
def parseCssColor (s : String) : Option RGBColor :=
  if s = "" then none
  else
    match searchRgb s.data with
    | none => none
    | some (c1, c2, c3) =>
      some { r := jsParseFloat ⟨c1⟩, g := jsParseFloat ⟨c2⟩, b := jsParseFloat ⟨c3⟩ }

/-- One channel of the WCAG linearization in `relativeLuminance`
(script.js lines 289–299), applied to the already-normalized channel
`c = raw / 255`. -/
noncomputable def linearize (c : ℚ) : ℝ :=
  if c ≤ 0.03928 then ((c / 12.92 : ℚ) : ℝ)
  else (((c + 0.055) / 1.055 : ℚ) : ℝ) ^ (2.4 : ℝ)

/-- `relativeLuminance` (script.js lines 289–299) on numeric channels. -/
noncomputable def relativeLuminance (r g b : ℚ) : ℝ :=
  0.2126 * linearize (r / 255) + 0.7152 * linearize (g / 255) + 0.0722 * linearize (b / 255)

/-- Luminance of a parsed color object; a `NaN` channel makes the whole
luminance `NaN` (`none`), exactly as `NaN` propagates through the arithmetic
of `relativeLuminance`. -/
noncomputable def lumOpt (c : RGBColor) : Option ℝ :=
  match c.r, c.g, c.b with
  | some r, some g, some b => some (relativeLuminance r g b)
  | _, _, _ => none

/-- `computeContrastRatio` (script.js lines 258–269): `-1` when either color
fails to parse; `none` models a `NaN` result (a `NaN` luminance propagates
through `Math.max`/`Math.min` and the division); otherwise
`(lighter + 0.05) / (darker + 0.05)`. -/
noncomputable def computeContrastRatio (fgColor bgColor : String) : Option ℝ :=
  match parseCssColor fgColor, parseCssColor bgColor with
  | some fg, some bg =>
    match lumOpt fg, lumOpt bg with
    | some lum1, some lum2 => some ((max lum1 lum2 + 0.05) / (min lum1 lum2 + 0.05))
    | _, _ => none
  | _, _ => some (-1)

/-- `getEffectiveBackground` (script.js lines 304–315).  The argument is the
list of `backgroundColor` computed-style strings of the nodes the loop
visits: the element itself, then its `parentElement` chain, stopping before
the `documentElement` (or when the chain ends).  The loop returns the first
visited background that is truthy (nonempty) and not the literal
`"rgba(0, 0, 0, 0)"`, and falls back to opaque white. -/
def getEffectiveBackground : List String → String
  | [] => "rgb(255, 255, 255)"
  | bg :: rest =>
    if bg ≠ "" ∧ bg ≠ "rgba(0, 0, 0, 0)" then bg else getEffectiveBackground rest

/-- Issue severity strings of `addIssue` call sites. -/
inductive Severity where
  | critical
  | warning
  | ok
  deriving DecidableEq

/-- An entry of the `issues` array (`addIssue`, script.js lines 251–253). -/
structure Issue where
  severity : Severity
  text : String

/-- The object returned by `analyzeDocument` (script.js lines 241–245). -/
structure AnalysisResult where
  finalScore : ℤ
  issues : List Issue
  summary : List String

/-- An `img` element as read by the alt-text check: its `alt` attribute
(`none` when absent, as `getAttribute` returns `null`). -/
structure ImgElement where
  alt : Option String
  deriving DecidableEq

/-- A `p, li, a, span, button` element as read by the font-size check: its
computed `fontSize` string. -/
structure TextElement where
  fontSize : String
  deriving DecidableEq

/-- A `p, h1..h6, button, a` element as read by the contrast check: its
computed `color` and `backgroundColor`, plus the computed backgrounds of its
`parentElement` chain below the document root (for the effective-background
walk). -/
structure ContrastElement where
  color : String
  backgroundColor : String
  ancestorBackgrounds : List String
  deriving DecidableEq

/-- A rendered document, restricted to the data `analyzeDocument` reads. -/
structure Document where
  imgs : List ImgElement
  headingLevels : List ℕ
  textEls : List TextElement
  contrastEls : List ContrastElement
  scrollWidth : ℤ
  clientWidth : ℤ

/-- `missingAlt` (script.js lines 72–76): images whose trimmed `alt`
attribute is empty or absent (`img.getAttribute("alt") || ""` then `trim`). -/
def missingAltCount (d : Document) : ℕ :=
  d.imgs.countP (fun img => jsTrim (img.alt.getD "") == "")

/-- `altScore` (script.js lines 78–84). -/
def altScore (d : Document) : ℕ :=
  if 0 < d.imgs.length then
    if (missingAltCount d : ℚ) / (d.imgs.length : ℚ) > 0.5 then 30
    else if (missingAltCount d : ℚ) / (d.imgs.length : ℚ) > 0.2 then 60
    else 90
  else 100

/-- The alt-text issue (script.js lines 86–92). -/
def altIssue (d : Document) : Issue :=
  let m := missingAltCount d
  let t := d.imgs.length
  if 0 < m then
    { severity := Severity.critical
      text := s!"Found {m} image(s) without descriptive alt text out of {t} images." }
  else { severity := Severity.ok, text := "All images appear to have alt text." }

/-- The alt-text summary line (script.js lines 93–97). -/
def altSummary (d : Document) : String :=
  let m := missingAltCount d
  let t := d.imgs.length
  if t = 0 then "No images detected."
  else s!"{m} of {t} images are missing alt text (affects screen reader users)."

/-- The `jumps` accumulation of the heading walk (script.js lines 113–121)
once `lastLevel` holds a previous heading's level. -/
def jumpsFrom (last : ℕ) : List ℕ → ℕ
  | [] => 0
  | level :: rest => (if (level : ℤ) - (last : ℤ) > 1 then 1 else 0) + jumpsFrom level rest

/-- The full heading walk: `lastLevel` starts as `null`, so the first heading
never counts as a jump. -/
def countJumps : List ℕ → ℕ
  | [] => 0
  | h :: t => jumpsFrom h t

/-- `headingScore` (script.js lines 104–132). -/
def headingScore (d : Document) : ℕ :=
  if d.headingLevels.length = 0 then 50
  else if 0 < countJumps d.headingLevels then 70 else 100

/-- The heading issue (script.js lines 105–131). -/
def headingIssue (d : Document) : Issue :=
  if d.headingLevels.length = 0 then
    { severity := Severity.warning
      text := "No heading tags (h1–h6) were found. Consider using headings to structure content." }
  else if 0 < countJumps d.headingLevels then
    let j := countJumps d.headingLevels
    { severity := Severity.warning
      text := s!"Detected {j} jump(s) in heading levels (e.g., h1 → h3). Consistent heading hierarchy improves navigation." }
  else { severity := Severity.ok, text := "Heading levels appear to follow a consistent hierarchy." }

/-- The heading summary line (script.js lines 133–137). -/
def headingSummary (d : Document) : String :=
  if d.headingLevels.length = 0 then
    "No headings used; consider adding h1–h3 to organize the page."
  else
    let n := d.headingLevels.length
    s!"Found {n} heading(s); structure is mostly valid."

/-- The small-font test of one text element (script.js lines 145–151):
`parseFloat` the computed font size; `NaN` is excluded, otherwise count it
when strictly below 12px. -/
def isSmallText (el : TextElement) : Bool :=
  match jsParseFloat el.fontSize with
  | some px => decide (px < 12)
  | none => false

/-- `smallTextCount` (script.js lines 144–151). -/
def smallTextCount (d : Document) : ℕ := d.textEls.countP isSmallText

/-- `fontScore` (script.js lines 153–155). -/
def fontScore (d : Document) : ℕ :=
  if 0 < smallTextCount d then
    if (smallTextCount d : ℚ) > (d.textEls.length : ℚ) * 0.3 then 60 else 80
  else 100

/-- The font-size issue (script.js lines 154–163). -/
def fontIssue (d : Document) : Issue :=
  if 0 < smallTextCount d then
    let c := smallTextCount d
    { severity := Severity.warning
      text := s!"{c} text element(s) appear to use very small font sizes (< 12px). Consider increasing for readability." }
  else
    { severity := Severity.ok
      text := "Font sizes for common text elements appear reasonably readable." }

/-- The font-size summary line (script.js lines 165–169). -/
def fontSummary (d : Document) : String :=
  if smallTextCount d = 0 then "Font sizes look readable for most standard text elements."
  else "Some text uses very small font sizes, which may reduce readability."

/-- The background string used for one contrast target (script.js line 181):
the computed background itself unless it is exactly the transparent literal,
in which case the effective-background walk starts at the element. -/
def elementBackground (el : ContrastElement) : String :=
  if el.backgroundColor = "rgba(0, 0, 0, 0)" then
    getEffectiveBackground (el.backgroundColor :: el.ancestorBackgrounds)
  else el.backgroundColor

/-- The contrast ratio computed for one contrast target (script.js line 183). -/
noncomputable def elementContrastRatio (el : ContrastElement) : Option ℝ :=
  computeContrastRatio el.color (elementBackground el)

/-- The low-contrast test (script.js line 184): `ratio > 0 && ratio < 4.5`;
false for the `-1` sentinel and for `NaN`. -/
def isLowContrast (el : ContrastElement) : Prop :=
  ∃ x : ℝ, elementContrastRatio el = some x ∧ 0 < x ∧ x < 4.5

/-- `lowContrastCount` (script.js lines 176–187). -/
noncomputable def lowContrastCount (els : List ContrastElement) : ℕ :=
  els.countP (fun el => @decide (isLowContrast el) (Classical.propDecidable _))

/-- `contrastScore` (script.js lines 189–191). -/
noncomputable def contrastScore (d : Document) : ℕ :=
  if 0 < lowContrastCount d.contrastEls then
    if (lowContrastCount d.contrastEls : ℚ) > (d.contrastEls.length : ℚ) * 0.2 then 55 else 75
  else 100

/-- The contrast issue (script.js lines 190–199). -/
noncomputable def contrastIssue (d : Document) : Issue :=
  if 0 < lowContrastCount d.contrastEls then
    let c := lowContrastCount d.contrastEls
    { severity := Severity.critical
      text := s!"{c} text element(s) may have low color contrast (contrast ratio < 4.5). This can be hard to read for many users." }
  else
    { severity := Severity.ok
      text := "No obvious low-contrast text detected in common elements." }

/-- The contrast summary line (script.js lines 201–205). -/
noncomputable def contrastSummary (d : Document) : String :=
  if lowContrastCount d.contrastEls = 0 then
    "Text contrast appears sufficient for most common elements."
  else
    "Some text elements may fail contrast guidelines; consider adjusting colors."

/-- `hasHorizontalScroll` (script.js line 212). -/
def hasHorizontalScroll (d : Document) : Bool :=
  decide (d.scrollWidth > d.clientWidth + 5)

/-- `responsiveScore` (script.js lines 214–216). -/
def responsiveScore (d : Document) : ℕ :=
  if hasHorizontalScroll d then 65 else 100

/-- The responsiveness issue (script.js lines 215–228). -/
def responsiveIssue (d : Document) : Issue :=
  if hasHorizontalScroll d then
    { severity := Severity.warning
      text := "The layout appears to cause horizontal scrolling at a mobile width (~375px). This may indicate poor responsiveness." }
  else
    { severity := Severity.ok
      text := "No horizontal scrolling detected at a simulated mobile width. Layout seems reasonably responsive." }

/-- The responsiveness summary line (script.js lines 230–234). -/
def responsiveSummary (d : Document) : String :=
  if hasHorizontalScroll d then
    "Some elements overflow horizontally on mobile; review your responsive design."
  else "Layout adapts reasonably well to a mobile viewport width."

/-- JavaScript `Math.round`: round half up. -/
def jsRound (q : ℚ) : ℤ := ⌊q + 1 / 2⌋

/-- `analyzeDocument` (script.js lines 63–246): the five checks run in
order, each pushing exactly one issue and one summary line and adding its
sub-score to `totalScore`; `metricsCount` ends at 5 and
`finalScore = Math.round(totalScore / metricsCount)`. -/
noncomputable def analyzeDocument (d : Document) : AnalysisResult :=
  { finalScore :=
      jsRound (((altScore d + headingScore d + fontScore d + contrastScore d
        + responsiveScore d : ℕ) : ℚ) / 5)
    issues := [altIssue d, headingIssue d, fontIssue d, contrastIssue d, responsiveIssue d]
    summary := [altSummary d, headingSummary d, fontSummary d, contrastSummary d,
      responsiveSummary d] }

/-- Strip an expected literal character sequence, or fail. -/
def dropLit : List Char → List Char → Option (List Char)
  | [], cs => some cs
  | t :: ts, c :: cs => if c = t then dropLit ts cs else none
  | _ :: _, [] => none

/-- `n` comma-separated numeric components followed by a closing parenthesis
that ends the string (optional spaces around each component). -/
def rgbComponents : ℕ → List Char → Bool
  | 0, _ => false
  | 1, cs =>
    match grabNum cs with
    | some (_, r) => decide (r.dropWhile jsSpace = [')'])
    | none => false
  | n + 2, cs =>
    match grabNum cs with
    | some (_, r) =>
      match r.dropWhile jsSpace with
      | ',' :: rest => rgbComponents (n + 1) rest
      | _ => false
    | none => false

/-- Spec-side definition (written from the specification's words, not from
the code): a string in `rgb(r,g,b)` or `rgba(r,g,b,a)` textual form — the
literal prefix `rgb(` (resp. `rgba(`), exactly three (resp. four)
comma-separated numeric components, and a closing parenthesis ending the
string. -/
def rgbTextualForm (s : String) : Bool :=
  match dropLit "rgb(".data s.data with
  | some rest => rgbComponents 3 rest
  | none =>
    match dropLit "rgba(".data s.data with
    | some rest => rgbComponents 4 rest
    | none => false

/-- Scenario document: 10 `img` elements of which 6 lack (usable) alt text,
zero headings, all font sizes 16px, uniform black text on an effectively
white background, and no horizontal overflow. -/
def docA : Document :=
  { imgs := [⟨none⟩, ⟨none⟩, ⟨none⟩, ⟨some ""⟩, ⟨some "   "⟩, ⟨some ""⟩,
      ⟨some "A chart"⟩, ⟨some "Logo"⟩, ⟨some "Photo"⟩, ⟨some "Icon"⟩]
    headingLevels := []
    textEls := [⟨"16px"⟩, ⟨"16px"⟩, ⟨"16px"⟩]
    contrastEls := [⟨"rgb(0, 0, 0)", "rgba(0, 0, 0, 0)", []⟩,
      ⟨"rgb(0, 0, 0)", "rgb(255, 255, 255)", []⟩]
    scrollWidth := 375
    clientWidth := 375 }

/-- A document with no matching elements at all and no horizontal overflow. -/
def emptyDoc : Document := ⟨[], [], [], [], 375, 375⟩

/-- A document whose headings ascend by at most one level at a time. -/
def docHeadings : Document := ⟨[], [1, 2, 3, 3, 2], [], [], 375, 375⟩

/-- A document whose root `scrollWidth` exceeds its `clientWidth` by 20px. -/
def docOverflow : Document := ⟨[], [], [], [], 395, 375⟩

lemma isDigit_jsSpace {c : Char} (h : c.isDigit = true) : jsSpace c = false := by
  by_contra hc
  rw [Bool.not_eq_false] at hc
  simp only [jsSpace, Bool.or_eq_true, decide_eq_true_eq] at hc
  rcases hc with ((((((rfl | rfl) | rfl) | rfl) | rfl) | rfl) | rfl) <;> exact absurd h (by decide)

lemma isDigit_ne_dash {c : Char} (h : c.isDigit = true) : c ≠ '-' := by
  rintro rfl; exact absurd h (by decide)

lemma isDigit_ne_plus {c : Char} (h : c.isDigit = true) : c ≠ '+' := by
  rintro rfl; exact absurd h (by decide)

lemma digitOrDot_cases {c : Char} (h : isDigitOrDot c = true) : c.isDigit = true ∨ c = '.' := by
  simpa [isDigitOrDot, Bool.or_eq_true, decide_eq_true_eq] using h

lemma digitOrDot_jsSpace {c : Char} (h : isDigitOrDot c = true) : jsSpace c = false := by
  rcases digitOrDot_cases h with h' | rfl
  · exact isDigit_jsSpace h'
  · decide

lemma digitOrDot_ne_dash {c : Char} (h : isDigitOrDot c = true) : c ≠ '-' := by
  rintro rfl; exact absurd h (by decide)

lemma digitOrDot_ne_plus {c : Char} (h : isDigitOrDot c = true) : c ≠ '+' := by
  rintro rfl; exact absurd h (by decide)

lemma jsParseFloat_digits {ds : List Char} (hne : ds ≠ [])
    (hd : ∀ c ∈ ds, c.isDigit = true) : jsParseFloat ⟨ds⟩ = some (digitsToNat ds) := by
  obtain ⟨c, t, rfl⟩ := List.exists_cons_of_ne_nil hne
  have hc := hd c (List.mem_cons_self c t)
  have hdrop : (c :: t).dropWhile jsSpace = c :: t :=
    List.dropWhile_cons_of_neg (by simp [isDigit_jsSpace hc])
  have hparts : unsignedParts (c :: t) = some (c :: t, [], 0) := by
    unfold unsignedParts
    rw [List.takeWhile_eq_self_iff.mpr hd, List.dropWhile_eq_nil_iff.mpr hd]
    simp [expVal]
  show jsParseFloat ⟨c :: t⟩ = _
  unfold jsParseFloat
  rw [show (⟨c :: t⟩ : String).data = c :: t from rfl, hdrop]
  simp only [if_neg (isDigit_ne_dash hc), if_neg (isDigit_ne_plus hc)]
  unfold parseUnsigned
  rw [hparts]
  simp [digitsToNat]

lemma jsParseFloat_digit_str {ds : List Char} {n : ℕ} (hne : ds ≠ [])
    (hd : ∀ c ∈ ds, c.isDigit = true) (hval : digitsToNat ds = n) :
    jsParseFloat ⟨ds⟩ = some n := by
  rw [jsParseFloat_digits hne hd, hval]

lemma parseCssColor_eval {s : String} {c1 c2 c3 : List Char}
    (hne : s ≠ "") (h : searchRgb s.data = some (c1, c2, c3)) :
    parseCssColor s = some ⟨jsParseFloat ⟨c1⟩, jsParseFloat ⟨c2⟩, jsParseFloat ⟨c3⟩⟩ := by
  simp [parseCssColor, hne, h]

lemma parseCssColor_black_sp : parseCssColor "rgb(0, 0, 0)" = some ⟨some 0, some 0, some 0⟩ := by
  rw [parseCssColor_eval (by decide)
    (by decide : searchRgb "rgb(0, 0, 0)".data = some (['0'], ['0'], ['0']))]
  rw [jsParseFloat_digit_str (by decide) (by decide) (by decide : digitsToNat ['0'] = 0)]
  norm_num

lemma parseCssColor_white_sp :
    parseCssColor "rgb(255, 255, 255)" = some ⟨some 255, some 255, some 255⟩ := by
  rw [parseCssColor_eval (by decide)
    (by decide : searchRgb "rgb(255, 255, 255)".data
      = some (['2','5','5'], ['2','5','5'], ['2','5','5']))]
  rw [jsParseFloat_digit_str (by decide) (by decide) (by decide : digitsToNat ['2','5','5'] = 255)]
  norm_num

lemma parseCssColor_black : parseCssColor "rgb(0,0,0)" = some ⟨some 0, some 0, some 0⟩ := by
  rw [parseCssColor_eval (by decide)
    (by decide : searchRgb "rgb(0,0,0)".data = some (['0'], ['0'], ['0']))]
  rw [jsParseFloat_digit_str (by decide) (by decide) (by decide : digitsToNat ['0'] = 0)]
  norm_num

lemma parseCssColor_white :
    parseCssColor "rgb(255,255,255)" = some ⟨some 255, some 255, some 255⟩ := by
  rw [parseCssColor_eval (by decide)
    (by decide : searchRgb "rgb(255,255,255)".data
      = some (['2','5','5'], ['2','5','5'], ['2','5','5']))]
  rw [jsParseFloat_digit_str (by decide) (by decide) (by decide : digitsToNat ['2','5','5'] = 255)]
  norm_num

lemma parseCssColor_teal :
    parseCssColor "rgb(10, 20, 30)" = some ⟨some 10, some 20, some 30⟩ := by
  rw [parseCssColor_eval (by decide)
    (by decide : searchRgb "rgb(10, 20, 30)".data
      = some (['1','0'], ['2','0'], ['3','0']))]
  rw [jsParseFloat_digit_str (by decide) (by decide) (by decide : digitsToNat ['1','0'] = 10)]
  rw [jsParseFloat_digit_str (by decide) (by decide) (by decide : digitsToNat ['2','0'] = 20)]
  rw [jsParseFloat_digit_str (by decide) (by decide) (by decide : digitsToNat ['3','0'] = 30)]
  norm_num

lemma linearize_zero : linearize 0 = 0 := by
  rw [linearize, if_pos (by norm_num)]
  norm_num

lemma linearize_one : linearize 1 = 1 := by
  rw [linearize, if_neg (by norm_num)]
  rw [show ((1 : ℚ) + 0.055) / 1.055 = 1 by norm_num]
  rw [Rat.cast_one, Real.one_rpow]

lemma relativeLuminance_black : relativeLuminance 0 0 0 = 0 := by
  rw [relativeLuminance, show (0 : ℚ) / 255 = 0 by norm_num, linearize_zero]
  ring

lemma relativeLuminance_white : relativeLuminance 255 255 255 = 1 := by
  rw [relativeLuminance, show (255 : ℚ) / 255 = 1 by norm_num, linearize_one]
  norm_num

lemma computeContrastRatio_eval {f g : String} {fr fg fb gr gg gb : ℚ}
    (hf : parseCssColor f = some ⟨some fr, some fg, some fb⟩)
    (hg : parseCssColor g = some ⟨some gr, some gg, some gb⟩) :
    computeContrastRatio f g =
      some ((max (relativeLuminance fr fg fb) (relativeLuminance gr gg gb) + 0.05)
        / (min (relativeLuminance fr fg fb) (relativeLuminance gr gg gb) + 0.05)) := by
  simp [computeContrastRatio, hf, hg, lumOpt]

lemma ratio_black_white_sp :
    computeContrastRatio "rgb(0, 0, 0)" "rgb(255, 255, 255)" = some 21 := by
  rw [computeContrastRatio_eval parseCssColor_black_sp parseCssColor_white_sp,
    relativeLuminance_black, relativeLuminance_white]
  norm_num [max_def, min_def]

lemma ratio_black_white :
    computeContrastRatio "rgb(0,0,0)" "rgb(255,255,255)" = some 21 := by
  rw [computeContrastRatio_eval parseCssColor_black parseCssColor_white,
    relativeLuminance_black, relativeLuminance_white]
  norm_num [max_def, min_def]

lemma jsParseFloat_dot : jsParseFloat ⟨['.']⟩ = none := by
  unfold jsParseFloat
  rw [show (⟨['.']⟩ : String).data = ['.'] from rfl,
    show List.dropWhile jsSpace ['.'] = ['.'] by decide]
  simp only [if_neg (by decide : ¬ ('.' : Char) = '-'), if_neg (by decide : ¬ ('.' : Char) = '+')]
  unfold parseUnsigned
  rw [show unsignedParts ['.'] = none by decide]
  rfl

lemma grabNum_spec {cs : List Char} {c r : List Char} (h : grabNum cs = some (c, r)) :
    c ≠ [] ∧ ∀ a ∈ c, isDigitOrDot a = true := by
  simp only [grabNum] at h
  split_ifs at h with hb
  simp only [Option.some_inj, Prod.mk.injEq] at h
  obtain ⟨rfl, rfl⟩ := h
  exact ⟨hb, fun a ha => List.mem_takeWhile_imp ha⟩

lemma matchBody_spec {cs c1 c2 c3 : List Char} (h : matchBody cs = some (c1, c2, c3)) :
    (c1 ≠ [] ∧ ∀ a ∈ c1, isDigitOrDot a = true)
    ∧ (c2 ≠ [] ∧ ∀ a ∈ c2, isDigitOrDot a = true)
    ∧ (c3 ≠ [] ∧ ∀ a ∈ c3, isDigitOrDot a = true) := by
  simp only [matchBody, Option.bind_eq_some, Option.map_eq_some'] at h
  obtain ⟨⟨d1, r1⟩, h1, s1, hs1, ⟨d2, r2⟩, h2, s2, hs2, ⟨d3, r3⟩, h3, heq⟩ := h
  obtain ⟨rfl, rfl, rfl⟩ := Prod.mk.injEq .. ▸ heq
  exact ⟨grabNum_spec h1, grabNum_spec h2, grabNum_spec h3⟩

lemma matchRgbAt_spec {cs c1 c2 c3 : List Char} (h : matchRgbAt cs = some (c1, c2, c3)) :
    (c1 ≠ [] ∧ ∀ a ∈ c1, isDigitOrDot a = true)
    ∧ (c2 ≠ [] ∧ ∀ a ∈ c2, isDigitOrDot a = true)
    ∧ (c3 ≠ [] ∧ ∀ a ∈ c3, isDigitOrDot a = true) := by
  unfold matchRgbAt at h
  split at h
  · split_ifs at h
    · split at h
      · exact matchBody_spec h
      · exact matchBody_spec h
      · exact matchBody_spec h
      · exact absurd h (by simp)
  · exact absurd h (by simp)

lemma searchRgb_spec : ∀ {cs c1 c2 c3 : List Char}, searchRgb cs = some (c1, c2, c3) →
    (c1 ≠ [] ∧ ∀ a ∈ c1, isDigitOrDot a = true)
    ∧ (c2 ≠ [] ∧ ∀ a ∈ c2, isDigitOrDot a = true)
    ∧ (c3 ≠ [] ∧ ∀ a ∈ c3, isDigitOrDot a = true) := by
  intro cs
  induction cs with
  | nil => intro c1 c2 c3 h; simp [searchRgb] at h
  | cons c rest ih =>
    intro c1 c2 c3 h
    rw [searchRgb] at h
    cases hm : matchRgbAt (c :: rest) with
    | some res => rw [hm] at h; simp at h; subst h; exact matchRgbAt_spec hm
    | none => rw [hm] at h; exact ih h

lemma parseUnsigned_nonneg {cs : List Char} {q : ℚ} (h : parseUnsigned cs = some q) : 0 ≤ q := by
  unfold parseUnsigned at h
  cases hp : unsignedParts cs with
  | none => rw [hp] at h; simp at h
  | some p =>
    rw [hp] at h
    simp only [Option.map_some', Option.some_inj] at h
    subst h
    have h10 : (0 : ℚ) < 10 ^ p.2.2 := zpow_pos (by norm_num) _
    refine mul_nonneg (add_nonneg (Nat.cast_nonneg _)
      (div_nonneg (Nat.cast_nonneg _) (by positivity))) h10.le

lemma jsParseFloat_digitOrDot_nonneg {ds : List Char} (hne : ds ≠ [])
    (hd : ∀ c ∈ ds, isDigitOrDot c = true) {q : ℚ} (h : jsParseFloat ⟨ds⟩ = some q) :
    0 ≤ q := by
  obtain ⟨c, t, rfl⟩ := List.exists_cons_of_ne_nil hne
  have hc := hd c (List.mem_cons_self c t)
  unfold jsParseFloat at h
  rw [show (⟨c :: t⟩ : String).data = c :: t from rfl,
    List.dropWhile_cons_of_neg (by simp [digitOrDot_jsSpace hc])] at h
  simp only [if_neg (digitOrDot_ne_dash hc), if_neg (digitOrDot_ne_plus hc)] at h
  exact parseUnsigned_nonneg h

lemma parseCssColor_channels_nonneg {s : String} {col : RGBColor}
    (h : parseCssColor s = some col) :
    (∀ q, col.r = some q → 0 ≤ q) ∧ (∀ q, col.g = some q → 0 ≤ q)
      ∧ (∀ q, col.b = some q → 0 ≤ q) := by
  unfold parseCssColor at h
  split_ifs at h with hs
  cases hsr : searchRgb s.data with
  | none => rw [hsr] at h; simp at h
  | some trip =>
    obtain ⟨c1, c2, c3⟩ := trip
    rw [hsr] at h
    simp only [Option.some_inj] at h
    subst h
    obtain ⟨h1, h2, h3⟩ := searchRgb_spec hsr
    exact ⟨fun q hq => jsParseFloat_digitOrDot_nonneg h1.1 h1.2 hq,
      fun q hq => jsParseFloat_digitOrDot_nonneg h2.1 h2.2 hq,
      fun q hq => jsParseFloat_digitOrDot_nonneg h3.1 h3.2 hq⟩

lemma linearize_nonneg {c : ℚ} (hc : 0 ≤ c) : 0 ≤ linearize c := by
  rw [linearize]
  split_ifs with h
  · exact_mod_cast (by positivity : (0 : ℚ) ≤ c / 12.92)
  · refine Real.rpow_nonneg ?_ _
    exact_mod_cast (by positivity : (0 : ℚ) ≤ (c + 0.055) / 1.055)

lemma relativeLuminance_nonneg {r g b : ℚ} (hr : 0 ≤ r) (hg : 0 ≤ g) (hb : 0 ≤ b) :
    0 ≤ relativeLuminance r g b := by
  have h1 := linearize_nonneg (c := r / 255) (by positivity)
  have h2 := linearize_nonneg (c := g / 255) (by positivity)
  have h3 := linearize_nonneg (c := b / 255) (by positivity)
  rw [relativeLuminance]
  exact add_nonneg (add_nonneg (mul_nonneg (by norm_num) h1) (mul_nonneg (by norm_num) h2))
    (mul_nonneg (by norm_num) h3)

lemma lumOpt_eq_some {col : RGBColor} {l : ℝ} (h : lumOpt col = some l) :
    ∃ r g b : ℚ, col.r = some r ∧ col.g = some g ∧ col.b = some b
      ∧ l = relativeLuminance r g b := by
  obtain ⟨cr, cg, cb⟩ := col
  cases cr with
  | none => simp [lumOpt] at h
  | some r =>
    cases cg with
    | none => simp [lumOpt] at h
    | some g =>
      cases cb with
      | none => simp [lumOpt] at h
      | some b =>
        simp only [lumOpt, Option.some_inj] at h
        exact ⟨r, g, b, rfl, rfl, rfl, h.symm⟩

lemma lumOpt_nonneg {s : String} {col : RGBColor} {l : ℝ}
    (hp : parseCssColor s = some col) (h : lumOpt col = some l) : 0 ≤ l := by
  obtain ⟨r, g, b, hr, hg, hb, rfl⟩ := lumOpt_eq_some h
  obtain ⟨hR, hG, hB⟩ := parseCssColor_channels_nonneg hp
  exact relativeLuminance_nonneg (hR r hr) (hG g hg) (hB b hb)

lemma computeContrastRatio_of_parses {f g : String} {cf cg : RGBColor}
    (hf : parseCssColor f = some cf) (hg : parseCssColor g = some cg) :
    computeContrastRatio f g = none
      ∨ ∃ x : ℝ, computeContrastRatio f g = some x ∧ 0 < x := by
  unfold computeContrastRatio
  rw [hf, hg]
  cases h1 : lumOpt cf with
  | none => left; simp [h1]
  | some l1 =>
    cases h2 : lumOpt cg with
    | none => left; simp [h1, h2]
    | some l2 =>
      right
      refine ⟨(max l1 l2 + 0.05) / (min l1 l2 + 0.05), by simp [h1, h2], ?_⟩
      have hl1 : 0 ≤ l1 := lumOpt_nonneg hf h1
      have hl2 : 0 ≤ l2 := lumOpt_nonneg hg h2
      have hmin : (0 : ℝ) < min l1 l2 + 0.05 := by
        have := le_min hl1 hl2
        linarith
      have hmax : (0 : ℝ) < max l1 l2 + 0.05 := by
        have := le_max_left l1 l2
        linarith
      exact div_pos hmax hmin

lemma computeContrastRatio_self {c : String} {col : RGBColor} {r g b : ℚ}
    (h : parseCssColor c = some col) (hr : col.r = some r) (hg : col.g = some g)
    (hb : col.b = some b) : computeContrastRatio c c = some 1 := by
  have hcol : col = ⟨some r, some g, some b⟩ := by
    obtain ⟨cr, cg, cb⟩ := col
    simp only at hr hg hb
    rw [hr, hg, hb]
  rw [hcol] at h
  obtain ⟨hR, hG, hB⟩ := parseCssColor_channels_nonneg h
  have hrn : 0 ≤ r := hR r rfl
  have hgn : 0 ≤ g := hG g rfl
  have hbn : 0 ≤ b := hB b rfl
  rw [computeContrastRatio_eval h h, max_self, min_self]
  have hlum := relativeLuminance_nonneg hrn hgn hbn
  rw [div_self (by linarith)]

lemma elementRatio_e1 :
    elementContrastRatio ⟨"rgb(0, 0, 0)", "rgba(0, 0, 0, 0)", []⟩ = some 21 := by
  unfold elementContrastRatio
  rw [show elementBackground ⟨"rgb(0, 0, 0)", "rgba(0, 0, 0, 0)", []⟩
      = "rgb(255, 255, 255)" by decide]
  exact ratio_black_white_sp

lemma elementRatio_e2 :
    elementContrastRatio ⟨"rgb(0, 0, 0)", "rgb(255, 255, 255)", []⟩ = some 21 := by
  unfold elementContrastRatio
  rw [show elementBackground ⟨"rgb(0, 0, 0)", "rgb(255, 255, 255)", []⟩
      = "rgb(255, 255, 255)" by decide]
  exact ratio_black_white_sp

lemma notLow_of_ratio_21 {el : ContrastElement} (h : elementContrastRatio el = some 21) :
    ¬ isLowContrast el := by
  rintro ⟨x, hx, hpos, hlt⟩
  rw [h] at hx
  obtain rfl : (21 : ℝ) = x := Option.some_inj.mp hx
  norm_num at hlt

lemma lowContrastCount_docA : lowContrastCount docA.contrastEls = 0 := by
  have h1 := notLow_of_ratio_21 elementRatio_e1
  have h2 := notLow_of_ratio_21 elementRatio_e2
  unfold lowContrastCount
  rw [show docA.contrastEls = [⟨"rgb(0, 0, 0)", "rgba(0, 0, 0, 0)", []⟩,
    ⟨"rgb(0, 0, 0)", "rgb(255, 255, 255)", []⟩] from rfl]
  rw [List.countP_cons, List.countP_cons, List.countP_nil]
  simp
  exact ⟨h2, h1⟩

lemma contrastScore_docA : contrastScore docA = 100 := by
  unfold contrastScore
  rw [lowContrastCount_docA]
  simp

lemma missingAltCount_docA : missingAltCount docA = 6 := by decide

lemma altScore_docA : altScore docA = 30 := by
  unfold altScore
  rw [missingAltCount_docA, show docA.imgs.length = 10 from rfl]
  norm_num

lemma jsParseFloat_16px : jsParseFloat "16px" = some 16 := by
  unfold jsParseFloat
  rw [show "16px".data.dropWhile jsSpace = '1' :: ['6', 'p', 'x'] by decide]
  simp only [if_neg (by decide : ¬ ('1' : Char) = '-'), if_neg (by decide : ¬ ('1' : Char) = '+')]
  unfold parseUnsigned
  rw [show unsignedParts ['1', '6', 'p', 'x'] = some (['1', '6'], [], 0) by decide]
  simp [digitsToNat]

lemma isSmallText_16px : isSmallText ⟨"16px"⟩ = false := by
  unfold isSmallText
  rw [jsParseFloat_16px]
  show decide ((16 : ℚ) < 12) = false
  exact decide_eq_false (by norm_num)

lemma smallTextCount_docA : smallTextCount docA = 0 := by
  unfold smallTextCount
  rw [show docA.textEls = [⟨"16px"⟩, ⟨"16px"⟩, ⟨"16px"⟩] from rfl]
  rw [List.countP_cons, List.countP_cons, List.countP_cons, List.countP_nil]
  rw [isSmallText_16px]
  simp

lemma fontScore_docA : fontScore docA = 100 := by
  unfold fontScore
  rw [smallTextCount_docA]
  simp

lemma headingScore_docA : headingScore docA = 50 := by decide

lemma responsiveScore_docA : responsiveScore docA = 100 := by decide

lemma finalScore_docA : (analyzeDocument docA).finalScore = 76 := by
  show jsRound (((altScore docA + headingScore docA + fontScore docA + contrastScore docA
    + responsiveScore docA : ℕ) : ℚ) / 5) = 76
  rw [altScore_docA, headingScore_docA, fontScore_docA, contrastScore_docA,
    responsiveScore_docA, jsRound]
  rw [Int.floor_eq_iff]
  norm_num

lemma jumpsFrom_eq_zero : ∀ {last : ℕ} {ls : List ℕ},
    List.Chain' (fun a b => b ≤ a + 1) (last :: ls) → jumpsFrom last ls = 0 := by
  intro last ls
  induction ls generalizing last with
  | nil => intro _; rfl
  | cons l t ih =>
    intro h
    rw [List.chain'_cons] at h
    obtain ⟨hle, ht⟩ := h
    unfold jumpsFrom
    rw [if_neg (by omega : ¬ ((l : ℤ) - (last : ℤ) > 1))]
    simpa using ih ht

lemma countJumps_eq_zero {ls : List ℕ} (h : List.Chain' (fun a b => b ≤ a + 1) ls) :
    countJumps ls = 0 := by
  cases ls with
  | nil => rfl
  | cons a t => exact jumpsFrom_eq_zero h

lemma altScore_props (d : Document) : 5 ∣ altScore d ∧ 30 ≤ altScore d ∧ altScore d ≤ 100 := by
  unfold altScore
  split_ifs <;> norm_num

lemma headingScore_props (d : Document) :
    5 ∣ headingScore d ∧ 50 ≤ headingScore d ∧ headingScore d ≤ 100 := by
  unfold headingScore
  split_ifs <;> norm_num

lemma fontScore_props (d : Document) : 5 ∣ fontScore d ∧ 60 ≤ fontScore d ∧ fontScore d ≤ 100 := by
  unfold fontScore
  split_ifs <;> norm_num

lemma contrastScore_props (d : Document) :
    5 ∣ contrastScore d ∧ 55 ≤ contrastScore d ∧ contrastScore d ≤ 100 := by
  unfold contrastScore
  split_ifs <;> norm_num

lemma responsiveScore_props (d : Document) :
    5 ∣ responsiveScore d ∧ 65 ≤ responsiveScore d ∧ responsiveScore d ≤ 100 := by
  unfold responsiveScore
  split_ifs <;> norm_num

lemma altScore_cases (d : Document) :
    altScore d = 30 ∨ altScore d = 60 ∨ altScore d = 90 ∨ altScore d = 100 := by
  unfold altScore
  split_ifs <;> simp

lemma headingScore_cases (d : Document) :
    headingScore d = 50 ∨ headingScore d = 70 ∨ headingScore d = 100 := by
  unfold headingScore
  split_ifs <;> simp

lemma fontScore_cases (d : Document) :
    fontScore d = 60 ∨ fontScore d = 80 ∨ fontScore d = 100 := by
  unfold fontScore
  split_ifs <;> simp

lemma contrastScore_cases (d : Document) :
    contrastScore d = 55 ∨ contrastScore d = 75 ∨ contrastScore d = 100 := by
  unfold contrastScore
  split_ifs <;> simp

lemma responsiveScore_cases (d : Document) :
    responsiveScore d = 65 ∨ responsiveScore d = 100 := by
  unfold responsiveScore
  split_ifs <;> simp

lemma jsRound_of_dvd {n : ℕ} (h : 5 ∣ n) : 5 * jsRound ((n : ℚ) / 5) = (n : ℤ) := by
  obtain ⟨k, rfl⟩ := h
  have h1 : ((5 * k : ℕ) : ℚ) / 5 = (k : ℚ) := by push_cast; ring
  rw [jsRound, h1]
  have h2 : ⌊(k : ℚ) + 1 / 2⌋ = (k : ℤ) := by
    rw [Int.floor_eq_iff]
    constructor <;> push_cast <;> norm_num
  rw [h2]
  push_cast
  ring

/-- C1: for every document handle, `analyzeDocument` returns a result whose
`issues` sequence has exactly 5 entries, whose `summary` sequence has exactly
5 entries (one per check, regardless of pass/fail), and whose `finalScore` is
the rounded mean of the five sub-scores. -/
theorem c1_analysis_shape (d : Document) :
    (analyzeDocument d).issues.length = 5 ∧ (analyzeDocument d).summary.length = 5
      ∧ (analyzeDocument d).finalScore
        = jsRound (((altScore d + headingScore d + fontScore d + contrastScore d
            + responsiveScore d : ℕ) : ℚ) / 5) :=
  ⟨rfl, rfl, rfl⟩

/-- C2: for a document with 10 images of which 6 lack alt text, zero
headings, all font sizes 16px, uniform black-on-white text and no horizontal
overflow, the sub-scores are alt 30, heading 50, font 100, contrast 100,
responsiveness 100, and the final score is round(380 / 5) = 76. -/
theorem c2_scenario_a :
    altScore docA = 30 ∧ headingScore docA = 50 ∧ fontScore docA = 100
      ∧ contrastScore docA = 100 ∧ responsiveScore docA = 100
      ∧ (analyzeDocument docA).finalScore = 76 :=
  ⟨altScore_docA, headingScore_docA, fontScore_docA, contrastScore_docA,
    responsiveScore_docA, finalScore_docA⟩

/-- C3 (counterexample): `parseCssColor` succeeds on `"rgb(1,2,3"`, a string
that is not in `rgb(r,g,b)` or `rgba(r,g,b,a)` textual form (its closing
parenthesis is missing), refuting the claim that every input of any other
format yields none. -/
theorem c3_counterexample :
    (parseCssColor "rgb(1,2,3").isSome = true ∧ rgbTextualForm "rgb(1,2,3" = false :=
  ⟨by decide, by decide⟩

/-- C3 (amended): `parseCssColor` succeeds exactly on nonempty strings that
contain, anywhere, a case-insensitive `rgb(`/`rgba(` prefix followed by three
comma-separated runs of digits/dots (closing parenthesis not required); in
particular it accepts well-formed `rgb(r,g,b)`/`rgba(r,g,b,a)` strings and
returns none for named colors, hex strings, `transparent` and `hsl(...)`. -/
theorem c3_amended :
    (∀ s : String, (parseCssColor s).isSome ↔ (s ≠ "" ∧ (searchRgb s.data).isSome))
      ∧ (parseCssColor "rgb(10, 20, 30)").isSome = true
      ∧ (parseCssColor "rgba(10,20,30,0.5)").isSome = true
      ∧ (parseCssColor "RGB(1, 2, 3)").isSome = true
      ∧ (parseCssColor "text rgb(1, 2, 3) text").isSome = true
      ∧ parseCssColor "transparent" = none
      ∧ parseCssColor "#ffffff" = none
      ∧ parseCssColor "blue" = none
      ∧ parseCssColor "hsl(120, 50%, 50%)" = none := by
  refine ⟨?_, by decide, by decide, by decide, by decide, by decide, by decide, by decide,
    by decide⟩
  intro s
  unfold parseCssColor
  split_ifs with hs
  · simp [hs]
  · cases h : searchRgb s.data with
    | none => simp [h, hs]
    | some trip =>
      obtain ⟨a, b, c⟩ := trip
      simp [h, hs]

/-- C4 (counterexample): the empty document vacuously satisfies "every
heading sequence increases by at most one level at a time", yet its heading
sub-score is 50, not 100. -/
theorem c4_counterexample :
    List.Chain' (fun a b => b ≤ a + 1) emptyDoc.headingLevels
      ∧ headingScore emptyDoc = 50 ∧ headingScore emptyDoc ≠ 100 :=
  ⟨by simp [emptyDoc], by decide, by decide⟩

/-- C4 (amended): for every document with at least one heading in which every
heading increases by at most one level at a time (decreases and
increases-by-one never count as jumps), the heading sub-score is 100. -/
theorem c4_amended (d : Document) (hne : d.headingLevels ≠ [])
    (h : List.Chain' (fun a b => b ≤ a + 1) d.headingLevels) :
    headingScore d = 100 := by
  unfold headingScore
  rw [if_neg (by simpa using hne), countJumps_eq_zero h]
  simp

/-- Witness for the amended C4 at a concrete document whose heading levels
are 1, 2, 3, 3, 2. -/
theorem c4_amended_witness :
    docHeadings.headingLevels ≠ []
      ∧ List.Chain' (fun a b => b ≤ a + 1) docHeadings.headingLevels
      ∧ headingScore docHeadings = 100 :=
  ⟨by decide, by norm_num [docHeadings, List.chain'_cons],
    c4_amended docHeadings (by decide) (by norm_num [docHeadings, List.chain'_cons])⟩

/-- C5 (counterexample): when no non-transparent background is found,
`getEffectiveBackground` returns the literal `"rgb(255, 255, 255)"` of
script.js line 314 (with spaces), not the claimed string
`"rgb(255,255,255)"`. -/
theorem c5_counterexample :
    getEffectiveBackground [] ≠ "rgb(255,255,255)"
      ∧ getEffectiveBackground [] = "rgb(255, 255, 255)" :=
  ⟨by decide, by decide⟩

/-- C5 (amended): `getEffectiveBackground` returns the first visited
background (the element's own, then its ancestors', stopping before the
document root — the walk happens only below the root) that is nonempty and
not the fully-transparent literal, and returns the default opaque white
string `"rgb(255, 255, 255)"` when none qualifies. -/
theorem c5_amended (chain : List String) :
    getEffectiveBackground chain
      = ((chain.find? fun bg => decide (bg ≠ "" ∧ bg ≠ "rgba(0, 0, 0, 0)")).getD
          "rgb(255, 255, 255)") := by
  induction chain with
  | nil => rfl
  | cons bg rest ih =>
    by_cases h : bg ≠ "" ∧ bg ≠ "rgba(0, 0, 0, 0)"
    · rw [getEffectiveBackground, if_pos h, List.find?_cons_of_pos _ (by simpa using h)]
      rfl
    · rw [getEffectiveBackground, if_neg h, List.find?_cons_of_neg _ (by simpa using h), ih]

/-- C6: `computeContrastRatio` returns the sentinel -1 exactly when at least
one of the two color strings fails to parse; when both parse with numeric
channels it returns `(max lum + 0.05) / (min lum + 0.05)`; and in the
analyzer's contrast check an element whose ratio is not strictly positive is
excluded from the low-contrast count. -/
theorem c6_contrast_sentinel (fg bg : String) :
    (computeContrastRatio fg bg = some (-1)
      ↔ (parseCssColor fg = none ∨ parseCssColor bg = none))
    ∧ (∀ r1 g1 b1 r2 g2 b2 : ℚ,
        parseCssColor fg = some ⟨some r1, some g1, some b1⟩ →
        parseCssColor bg = some ⟨some r2, some g2, some b2⟩ →
        computeContrastRatio fg bg
          = some ((max (relativeLuminance r1 g1 b1) (relativeLuminance r2 g2 b2) + 0.05)
            / (min (relativeLuminance r1 g1 b1) (relativeLuminance r2 g2 b2) + 0.05)))
    ∧ (∀ el : ContrastElement, (∀ x : ℝ, elementContrastRatio el = some x → x ≤ 0)
        → ¬ isLowContrast el) := by
  refine ⟨⟨?_, ?_⟩, ?_, ?_⟩
  · intro h
    by_contra hcon
    push_neg at hcon
    obtain ⟨hf, hg⟩ := hcon
    obtain ⟨cf, hcf⟩ := Option.ne_none_iff_exists'.mp hf
    obtain ⟨cg, hcg⟩ := Option.ne_none_iff_exists'.mp hg
    rcases computeContrastRatio_of_parses hcf hcg with hN | ⟨x, hx, hpos⟩
    · rw [hN] at h
      exact absurd h (by simp)
    · rw [hx] at h
      have hx1 : x = -1 := Option.some_inj.mp h
      linarith [hx1 ▸ hpos]
  · intro h
    unfold computeContrastRatio
    rcases h with h | h
    · simp [h]
    · cases hf : parseCssColor fg with
      | none => simp
      | some cf => simp [h]
  · intro r1 g1 b1 r2 g2 b2 hf hg
    exact computeContrastRatio_eval hf hg
  · rintro el hle ⟨x, hx, hpos, _⟩
    exact absurd hpos (not_lt.mpr (hle x hx))

/-- Witness for C6: a named color fails to parse and yields the sentinel -1;
the corresponding contrast target is excluded from the low-contrast count;
and for two parsed colors the ratio is the luminance formula. -/
theorem c6_witness :
    computeContrastRatio "blue" "rgb(0, 0, 0)" = some (-1)
      ∧ ¬ isLowContrast ⟨"blue", "rgb(0, 0, 0)", []⟩
      ∧ computeContrastRatio "rgb(0, 0, 0)" "rgb(255, 255, 255)"
        = some ((max (relativeLuminance 0 0 0) (relativeLuminance 255 255 255) + 0.05)
          / (min (relativeLuminance 0 0 0) (relativeLuminance 255 255 255) + 0.05)) := by
  have hsent : computeContrastRatio "blue" "rgb(0, 0, 0)" = some (-1) :=
    (c6_contrast_sentinel "blue" "rgb(0, 0, 0)").1.mpr (Or.inl (by decide))
  refine ⟨hsent, ?_, ?_⟩
  · refine (c6_contrast_sentinel "blue" "rgb(0, 0, 0)").2.2 _ ?_
    intro x hx
    have helem : elementContrastRatio ⟨"blue", "rgb(0, 0, 0)", []⟩ = some (-1) := by
      unfold elementContrastRatio
      rw [show elementBackground ⟨"blue", "rgb(0, 0, 0)", []⟩ = "rgb(0, 0, 0)" from by decide]
      exact hsent
    rw [helem] at hx
    obtain rfl : (-1 : ℝ) = x := Option.some_inj.mp hx
    norm_num
  · exact (c6_contrast_sentinel "rgb(0, 0, 0)" "rgb(255, 255, 255)").2.1 0 0 0 255 255 255
      parseCssColor_black_sp parseCssColor_white_sp

/-- C7: the alt-text check yields sub-score 100 and severity ok for every
document with zero `img` elements; otherwise, with ratio missingAlt/total
(missingAlt counting images whose trimmed alt attribute is empty or absent),
the sub-score is 30 when ratio > 1/2, 60 when 1/5 < ratio ≤ 1/2, and 90
otherwise; the issue severity is critical exactly when missingAlt > 0. -/
theorem c7_alt_check (d : Document) :
    (d.imgs.length = 0 → altScore d = 100 ∧ (altIssue d).severity = Severity.ok)
    ∧ (0 < d.imgs.length →
        ((1 : ℚ) / 2 < (missingAltCount d : ℚ) / (d.imgs.length : ℚ) → altScore d = 30)
        ∧ ((1 : ℚ) / 5 < (missingAltCount d : ℚ) / (d.imgs.length : ℚ)
            → (missingAltCount d : ℚ) / (d.imgs.length : ℚ) ≤ 1 / 2 → altScore d = 60)
        ∧ ((missingAltCount d : ℚ) / (d.imgs.length : ℚ) ≤ 1 / 5 → altScore d = 90))
    ∧ ((altIssue d).severity = Severity.critical ↔ 0 < missingAltCount d) := by
  refine ⟨?_, ?_, ?_⟩
  · intro h0
    have hm : missingAltCount d = 0 := by
      have hle : missingAltCount d ≤ d.imgs.length := List.countP_le_length _
      omega
    constructor
    · unfold altScore
      rw [if_neg (by omega)]
    · unfold altIssue
      rw [hm]
      simp
  · intro hpos
    unfold altScore
    rw [if_pos hpos]
    refine ⟨fun h1 => ?_, fun h1 h2 => ?_, fun h1 => ?_⟩
    · rw [if_pos (by rw [show (0.5 : ℚ) = 1 / 2 by norm_num]; exact h1)]
    · rw [if_neg (by rw [show (0.5 : ℚ) = 1 / 2 by norm_num]; exact not_lt.mpr h2),
        if_pos (by rw [show (0.2 : ℚ) = 1 / 5 by norm_num]; exact h1)]
    · rw [if_neg (by rw [show (0.5 : ℚ) = 1 / 2 by norm_num]; exact not_lt.mpr (by linarith)),
        if_neg (by rw [show (0.2 : ℚ) = 1 / 5 by norm_num]; exact not_lt.mpr h1)]
  · simp only [altIssue]
    split_ifs with h
    · simp [h]
    · simp [h]

/-- Witness for C7: the empty document has score 100 with severity ok, and
the 10-image document with 6 missing alts has score 30 with severity
critical. -/
theorem c7_witness :
    altScore emptyDoc = 100 ∧ (altIssue emptyDoc).severity = Severity.ok
      ∧ altScore docA = 30 ∧ (altIssue docA).severity = Severity.critical := by
  have h0 := (c7_alt_check emptyDoc).1 rfl
  refine ⟨h0.1, h0.2, ?_, ?_⟩
  · exact ((c7_alt_check docA).2.1 (by decide)).1
      (by rw [missingAltCount_docA, show docA.imgs.length = 10 from rfl]; norm_num)
  · exact (c7_alt_check docA).2.2.mpr (by rw [missingAltCount_docA]; norm_num)

/-- C8 (counterexample): `parseCssColor` accepts `"rgb(., 0, 0)"` (the regex
matches and `parseFloat "."` is NaN), but the contrast ratio of that color
with itself is NaN (modelled `none`), not 1. -/
theorem c8_counterexample :
    (parseCssColor "rgb(., 0, 0)").isSome = true
      ∧ computeContrastRatio "rgb(., 0, 0)" "rgb(., 0, 0)" ≠ some 1 := by
  have hp : parseCssColor "rgb(., 0, 0)" = some ⟨none, some 0, some 0⟩ := by
    rw [parseCssColor_eval (by decide)
      (by decide : searchRgb "rgb(., 0, 0)".data = some (['.'], ['0'], ['0']))]
    rw [jsParseFloat_dot,
      jsParseFloat_digit_str (by decide) (by decide) (by decide : digitsToNat ['0'] = 0)]
    norm_num
  constructor
  · rw [hp]; rfl
  · have hnone : computeContrastRatio "rgb(., 0, 0)" "rgb(., 0, 0)" = none := by
      unfold computeContrastRatio
      rw [hp]
      simp [lumOpt]
    rw [hnone]
    simp

/-- C8 (amended): the black-on-white contrast ratio is exactly 21, and for
every color string the parser accepts whose three channels are numeric (not
NaN), the self-contrast ratio is exactly 1. -/
theorem c8_amended :
    computeContrastRatio "rgb(0,0,0)" "rgb(255,255,255)" = some 21
      ∧ ∀ (c : String) (col : RGBColor) (r g b : ℚ),
          parseCssColor c = some col → col.r = some r → col.g = some g →
          col.b = some b → computeContrastRatio c c = some 1 :=
  ⟨ratio_black_white, fun _ _ _ _ _ h hr hg hb => computeContrastRatio_self h hr hg hb⟩

/-- Witness for the amended C8 at the concrete color `rgb(10, 20, 30)`. -/
theorem c8_amended_witness :
    parseCssColor "rgb(10, 20, 30)" = some ⟨some 10, some 20, some 30⟩
      ∧ computeContrastRatio "rgb(10, 20, 30)" "rgb(10, 20, 30)" = some 1 :=
  ⟨parseCssColor_teal, c8_amended.2 "rgb(10, 20, 30)" ⟨some 10, some 20, some 30⟩ 10 20 30
    parseCssColor_teal rfl rfl rfl⟩

/-- C9: the responsiveness check yields sub-score 65 with severity warning
exactly when the root element's scrollWidth exceeds its clientWidth by more
than 5 pixels, and sub-score 100 with severity ok otherwise; concretely, a
20px overflow yields 65 and warning. -/
theorem c9_responsive_check :
    (∀ d : Document,
      ((responsiveScore d = 65 ∧ (responsiveIssue d).severity = Severity.warning)
        ↔ d.scrollWidth > d.clientWidth + 5)
      ∧ ((responsiveScore d = 100 ∧ (responsiveIssue d).severity = Severity.ok)
        ↔ ¬ d.scrollWidth > d.clientWidth + 5))
    ∧ responsiveScore docOverflow = 65
    ∧ (responsiveIssue docOverflow).severity = Severity.warning := by
  refine ⟨fun d => ?_, by decide, by decide⟩
  unfold responsiveScore responsiveIssue hasHorizontalScroll
  by_cases h : d.scrollWidth > d.clientWidth + 5
  · simp [h]
  · simp [h]

/-- C10: every sub-score lies in its fixed tier set (all multiples of 5), so
the tier sum is divisible by 5 and rounding never changes the mean; the
final score is an exact integer in [52, 100]. -/
theorem c10_score_range (d : Document) :
    altScore d ∈ ([30, 60, 90, 100] : List ℕ)
    ∧ headingScore d ∈ ([50, 70, 100] : List ℕ)
    ∧ fontScore d ∈ ([60, 80, 100] : List ℕ)
    ∧ contrastScore d ∈ ([55, 75, 100] : List ℕ)
    ∧ responsiveScore d ∈ ([65, 100] : List ℕ)
    ∧ 5 ∣ (altScore d + headingScore d + fontScore d + contrastScore d + responsiveScore d)
    ∧ 5 * (analyzeDocument d).finalScore
      = ((altScore d + headingScore d + fontScore d + contrastScore d
          + responsiveScore d : ℕ) : ℤ)
    ∧ 52 ≤ (analyzeDocument d).finalScore ∧ (analyzeDocument d).finalScore ≤ 100 := by
  obtain ⟨ad, al, au⟩ := altScore_props d
  obtain ⟨hd', hl, hu⟩ := headingScore_props d
  obtain ⟨fd, fl, fu⟩ := fontScore_props d
  obtain ⟨cd, cl, cu⟩ := contrastScore_props d
  obtain ⟨rd, rl, ru⟩ := responsiveScore_props d
  have hdvd : 5 ∣ (altScore d + headingScore d + fontScore d + contrastScore d
      + responsiveScore d) :=
    dvd_add (dvd_add (dvd_add (dvd_add ad hd') fd) cd) rd
  have hfs : (analyzeDocument d).finalScore
      = jsRound (((altScore d + headingScore d + fontScore d + contrastScore d
        + responsiveScore d : ℕ) : ℚ) / 5) := rfl
  have hexact := jsRound_of_dvd hdvd
  refine ⟨?_, ?_, ?_, ?_, ?_, hdvd, ?_, ?_, ?_⟩
  · rcases altScore_cases d with h | h | h | h <;> simp [h]
  · rcases headingScore_cases d with h | h | h <;> simp [h]
  · rcases fontScore_cases d with h | h | h <;> simp [h]
  · rcases contrastScore_cases d with h | h | h <;> simp [h]
  · rcases responsiveScore_cases d with h | h <;> simp [h]
  · rw [hfs]
    exact hexact
  · rw [hfs]
    omega
  · rw [hfs]
    omega
